import Mathlib

/-!
Verification development for `weather.py`, a status-bar weather widget script.

Shallow embedding conventions:
* JSON / Python numbers are modelled as exact rationals (`ℚ`).  The script's
  arithmetic (`* 9/5 + 32`, `+ 2`, `* 0.621371`) is exact in this model; the
  `:.1f` format is modelled by `fmt1` (round half to even at one decimal).
* Python `str(x)` on a number is modelled by `pyStr` (integers print without a
  decimal point, mirroring JSON integers; terminating decimals print exactly).
* Strings read from files and the environment are modelled as `List Char` where
  character-level reasoning is needed, `String` elsewhere.
* `os.environ` is modelled as a function `List Char → Option (List Char)`.
* Exceptions are modelled with `Option` / `Except String`; the message strings
  stand in for Python exception text.
-/

namespace Weather

/-! ### Numeric formatting helpers -/

/-- Round a rational to the nearest integer, ties to even (Python's rounding
used by the `%.1f`-style format on exactly representable values). -/
def roundHalfEvenZ (q : ℚ) : ℤ :=
  let f := ⌊q⌋
  let r := q - f
  if r < 1/2 then f
  else if 1/2 < r then f + 1
  else if f % 2 = 0 then f else f + 1

/-- Model of the Python format `f"{x:.1f}"`: one digit after the decimal point. -/
def fmt1 (q : ℚ) : String :=
  let n := roundHalfEvenZ (q * 10)
  let sgn := if n < 0 then "-" else ""
  let m := n.natAbs
  sgn ++ toString (m / 10) ++ "." ++ toString (m % 10)

/-- Fractional-digit printer used by `pyStr`: prints the decimal expansion of a
rational in `[0,1)`, stopping when the remainder is zero (fuel-bounded). -/
def fracDigits : Nat → ℚ → String
  | 0, _ => ""
  | fuel + 1, r =>
    let r10 := r * 10
    let d := ⌊r10⌋
    let rest := r10 - (d : ℚ)
    toString d.natAbs ++ (if rest = 0 then "" else fracDigits fuel rest)

/-- Model of Python `str()` on a JSON number: integers print with no decimal
point, other terminating decimals print exactly. -/
def pyStr (q : ℚ) : String :=
  if q.den = 1 then toString q.num
  else
    let sgn := if q < 0 then "-" else ""
    let a := |q|
    sgn ++ toString (⌊a⌋.natAbs) ++ "." ++ fracDigits 17 (a - ⌊a⌋)

/-! ### Weather code tables (`WMO_WEATHER_CODES`, `get_description`'s dict) -/

/-- The `WMO_WEATHER_CODES` dict of the script, as a partial map
(`dict.get` with no hit returns `none`). -/
def WMO_WEATHER_CODES (c : Int) : Option String :=
  if c = 0 then some "☀️"
  else if c = 1 then some "🌤️"
  else if c = 2 then some "⛅"
  else if c = 3 then some "☁️"
  else if c = 45 then some "🌫️"
  else if c = 48 then some "🌫️"
  else if c = 51 then some "🌧️"
  else if c = 53 then some "🌧️"
  else if c = 55 then some "🌧️"
  else if c = 61 then some "🌧️"
  else if c = 63 then some "🌧️"
  else if c = 65 then some "🌧️"
  else if c = 80 then some "🌦️"
  else if c = 81 then some "🌦️"
  else if c = 82 then some "🌦️"
  else if c = 95 then some "⛈️"
  else if c = 96 then some "⛈️"
  else if c = 99 then some "⛈️"
  else none

/-- The keys of the weather-code tables. -/
def wmoCodes : List Int := [0, 1, 2, 3, 45, 48, 51, 53, 55, 61, 63, 65, 80, 81, 82, 95, 96, 99]

/-- `get_weather_icon`: `WMO_WEATHER_CODES.get(weather_code, "❓")`. -/
def get_weather_icon (weather_code : Int) : String :=
  (WMO_WEATHER_CODES weather_code).getD "❓"

/-- The local `descriptions` dict of `get_description`, as a partial map. -/
def descriptions (c : Int) : Option String :=
  if c = 0 then some "Clear sky"
  else if c = 1 then some "Mainly clear"
  else if c = 2 then some "Partly cloudy"
  else if c = 3 then some "Overcast"
  else if c = 45 then some "Fog"
  else if c = 48 then some "Depositing rime fog"
  else if c = 51 then some "Light drizzle"
  else if c = 53 then some "Moderate drizzle"
  else if c = 55 then some "Dense drizzle"
  else if c = 61 then some "Slight rain"
  else if c = 63 then some "Moderate rain"
  else if c = 65 then some "Heavy rain"
  else if c = 80 then some "Slight rain showers"
  else if c = 81 then some "Moderate rain showers"
  else if c = 82 then some "Violent rain showers"
  else if c = 95 then some "Thunderstorm"
  else if c = 96 then some "Thunderstorm with slight hail"
  else if c = 99 then some "Thunderstorm with heavy hail"
  else none

/-- `get_description`: `descriptions.get(weather_code, "Unknown")`. -/
def get_description (weather_code : Int) : String :=
  (descriptions weather_code).getD "Unknown"

/-! ### Current-weather data and the getter functions -/

/-- The fields of the API's `current` object used by the script. -/
structure CurrentData where
  temperature_2m : ℚ
  weathercode : Int
  wind_speed_10m : ℚ
  relative_humidity_2m : ℚ
deriving DecidableEq

/-- `get_temperature(current_data)`; `temp_unit` is the resolved unit global. -/
def get_temperature (temp_unit : String) (current_data : CurrentData) : String :=
  if temp_unit = "c" then pyStr current_data.temperature_2m ++ "°C"
  else fmt1 (current_data.temperature_2m * 9 / 5 + 32) ++ "°F"

/-- `get_feels_like(current_data)`. -/
def get_feels_like (temp_unit : String) (current_data : CurrentData) : String :=
  let temp := current_data.temperature_2m
  let humidity := current_data.relative_humidity_2m
  let feels_like := if humidity > 70 then temp + 2 else temp
  if temp_unit = "c" then fmt1 feels_like ++ "°C"
  else fmt1 (feels_like * 9 / 5 + 32) ++ "°F"

/-- `get_wind_speed(current_data)`; `windspeed_unit` is the resolved global. -/
def get_wind_speed (windspeed_unit : String) (current_data : CurrentData) : String :=
  if windspeed_unit = "km/h" then pyStr current_data.wind_speed_10m ++ " km/h"
  else fmt1 (current_data.wind_speed_10m * 0.621371) ++ " mph"

/-- The "feels like" value before unit conversion: the raw temperature plus 2
when relative humidity exceeds 70, the raw temperature otherwise.  (Statement
helper; `get_feels_like` is the embedding of the code.) -/
def feelsVal (current_data : CurrentData) : ℚ :=
  if current_data.relative_humidity_2m > 70 then current_data.temperature_2m + 2
  else current_data.temperature_2m

/-! ### Payload model and the `__main__` processing block -/

/-- The parallel arrays of the API's `daily` object used by the script. -/
structure DailyData where
  time : List String
  weathercode : List Int
  temperature_2m_max : List ℚ
  temperature_2m_min : List ℚ
  sunrise : List String
  sunset : List String
deriving DecidableEq

/-- The fetched JSON payload; `current` / `daily` are `none` when the key is
missing (a `KeyError` on access). -/
structure WeatherData where
  current : Option CurrentData
  daily : Option DailyData
deriving DecidableEq

/-- The resolved configuration globals of the `__main__` block. -/
structure Config where
  temp_unit : String
  windspeed_unit : String
  show_icon : Bool
  show_location : Bool
  forecast_days : Int
  lat : ℚ
  lon : ℚ
deriving DecidableEq

/-- The `{text, tooltip}` record serialized to standard output. -/
structure OutRecord where
  text : String
  tooltip : String
deriving DecidableEq

/-- Python `xs[i]`: `IndexError` when out of range. -/
def pyIndex (l : List α) (i : Nat) : Except String α :=
  match l.get? i with
  | some a => .ok a
  | none => .error "IndexError: list index out of range"

/-- Python `s.split(sep)` for a single-character separator, on the character
list of the string. -/
def splitOnChar (sep : Char) : List Char → List (List Char)
  | [] => [[]]
  | c :: rest =>
    if c == sep then [] :: splitOnChar sep rest
    else
      match splitOnChar sep rest with
      | g :: gs => (c :: g) :: gs
      | [] => [[c]]

/-- Python `s.split("T")[1][:5]`, as used on sunrise/sunset timestamps:
the part after the first `"T"`, truncated to 5 characters; `IndexError`
when the string has no `"T"`. -/
def splitT5 (s : String) : Except String String :=
  match splitOnChar 'T' s.data with
  | _ :: t :: _ => .ok (String.mk (t.take 5))
  | _ => .error "IndexError: list index out of range"

/-- The daily max/min temperature formatting of the forecast loop:
`f"{t}°C"` for Celsius, `f"{t * 9/5 + 32:.1f}°F"` for Fahrenheit. -/
def formatDailyTemp (temp_unit : String) (t : ℚ) : String :=
  if temp_unit = "c" then pyStr t ++ "°C" else fmt1 (t * 9 / 5 + 32) ++ "°F"

/-- `day_label`: `"Today"` for index 0, `f"Day {i+1}"` otherwise. -/
def dayLabel (i : Nat) : String :=
  if i = 0 then "Today" else "Day " ++ toString (i + 1)

/-- One iteration of the forecast loop: the tooltip block appended for day `i`. -/
def forecastBlock (temp_unit : String) (daily : DailyData) (i : Nat) : Except String String :=
  match pyIndex daily.time i with
  | .error e => .error e
  | .ok date =>
  match pyIndex daily.weathercode i with
  | .error e => .error e
  | .ok code =>
  let weather_desc := get_description code
  let weather_icon := get_weather_icon code
  match pyIndex daily.temperature_2m_max i with
  | .error e => .error e
  | .ok tmax =>
  match pyIndex daily.temperature_2m_min i with
  | .error e => .error e
  | .ok tmin =>
  let max_temp := formatDailyTemp temp_unit tmax
  let min_temp := formatDailyTemp temp_unit tmin
  match pyIndex daily.sunrise i with
  | .error e => .error e
  | .ok sunriseRaw =>
  match splitT5 sunriseRaw with
  | .error e => .error e
  | .ok sunrise =>
  match pyIndex daily.sunset i with
  | .error e => .error e
  | .ok sunsetRaw =>
  match splitT5 sunsetRaw with
  | .error e => .error e
  | .ok sunset =>
  let day_label := dayLabel i
  .ok ("\n<b>" ++ day_label ++ " (" ++ date ++ ")</b>\n"
    ++ weather_icon ++ " " ++ weather_desc ++ "\n"
    ++ "⬆️ " ++ max_temp ++ " ⬇️ " ++ min_temp ++ "\n"
    ++ "🌅 " ++ sunrise ++ " 🌇 " ++ sunset ++ "\n")

/-- The forecast loop over the given iteration indices, collecting the blocks
appended to the tooltip in order. -/
def forecastBlocksAux (temp_unit : String) (daily : DailyData) : List Nat → Except String (List String)
  | [] => .ok []
  | i :: is =>
    match forecastBlock temp_unit daily i with
    | .error e => .error e
    | .ok b =>
      match forecastBlocksAux temp_unit daily is with
      | .error e => .error e
      | .ok bs => .ok (b :: bs)

/-- The `data["text"]` assembly: temperature, icon prepended when `show_icon`,
`" | Paris, FR"` appended when `show_location`. -/
def buildText (cfg : Config) (current : CurrentData) : String :=
  let t0 := get_temperature cfg.temp_unit current
  let t1 := if cfg.show_icon then get_weather_icon current.weathercode ++ " " ++ t0 else t0
  if cfg.show_location then t1 ++ " | Paris, FR" else t1

/-- The first four tooltip lines (description, feels-like, wind, humidity). -/
def tooltipHead (cfg : Config) (current : CurrentData) : String :=
  "<b>" ++ get_description current.weathercode ++ " " ++ get_temperature cfg.temp_unit current ++ "</b>\n"
  ++ "Feels like: " ++ get_feels_like cfg.temp_unit current ++ "\n"
  ++ "Wind: " ++ get_wind_speed cfg.windspeed_unit current ++ "\n"
  ++ "Humidity: " ++ pyStr current.relative_humidity_2m ++ "%\n"

/-- The second `try` block of `__main__`: build `{text, tooltip}` from the
fetched payload, or raise (`.error`) as the code would. -/
def process (cfg : Config) (w : WeatherData) : Except String OutRecord :=
  match w.current with
  | none => .error "KeyError: current"
  | some current =>
  match w.daily with
  | none => .error "KeyError: daily"
  | some daily =>
  let text := buildText cfg current
  match forecastBlocksAux cfg.temp_unit daily
      (List.range (min cfg.forecast_days (daily.time.length : Int)).toNat) with
  | .error e => .error e
  | .ok blocks => .ok { text := text, tooltip := tooltipHead cfg current ++ String.join blocks }

/-- Result of the single HTTP fetch: either an exception (message) from
`requests.get` / `raise_for_status` / `.json()`, or a decoded payload. -/
inductive FetchResult
  | failure (msg : String)
  | success (w : WeatherData)

/-- The observable outcome of one run: the JSON record written to stdout, the
process exit code, and whether a stack trace was written to stderr. -/
structure MainResult where
  stdout : OutRecord
  exitCode : Nat
  stderrTrace : Bool
deriving DecidableEq

/-- The tail of `__main__` after config resolution: fetch error path
(exit 1), processing error path (stack trace to stderr, exit 0), success
path (exit 0). -/
def mainRun (cfg : Config) (fr : FetchResult) : MainResult :=
  match fr with
  | .failure msg =>
    { stdout := { text := "❓ Weather Error", tooltip := "Failed to get weather data: " ++ msg }
      exitCode := 1
      stderrTrace := false }
  | .success w =>
    match process cfg w with
    | .ok r => { stdout := r, exitCode := 0, stderrTrace := false }
    | .error e =>
      { stdout := { text := "❓ Processing Error", tooltip := "Failed to process weather data: " ++ e }
        exitCode := 0
        stderrTrace := true }

/-! ### Python `int()` / `float()` literal parsing (ASCII subset)

These embed CPython's `int(str)` and `float(str)` conversions on ASCII
input: surrounding whitespace is stripped, an optional sign is allowed, and
digit groups may contain single underscores between digits.  (`float` special
strings `inf` / `nan`, and non-ASCII digits, are outside the model.) -/

/-- ASCII whitespace recognised by Python's `str.strip()`: space, tab,
newline, carriage return, vertical tab, form feed. -/
def isSpaceB (c : Char) : Bool :=
  ([' ', '\t', '\n', '\r', Char.ofNat 11, Char.ofNat 12] : List Char).contains c

/-- Strip `isSpaceB` characters from both ends (Python `str.strip()`). -/
def stripL (l : List Char) : List Char :=
  ((l.dropWhile isSpaceB).reverse.dropWhile isSpaceB).reverse

/-- Digit run with optional single underscores between digits, continuing an
accumulator: value and number of digits consumed. -/
def digitsAux : List Char → Nat → Nat → Option (Nat × Nat)
  | [], acc, cnt => some (acc, cnt)
  | c :: rest, acc, cnt =>
    if c.isDigit then digitsAux rest (acc * 10 + (c.toNat - 48)) (cnt + 1)
    else if c == '_' then
      match rest with
      | d :: rest2 =>
        if d.isDigit then digitsAux rest2 (acc * 10 + (d.toNat - 48)) (cnt + 1) else none
      | [] => none
    else none

/-- A nonempty digit group per Python's grammar `digit (["_"] digit)*`. -/
def parseDigits (l : List Char) : Option (Nat × Nat) :=
  match l with
  | [] => none
  | c :: rest => if c.isDigit then digitsAux rest (c.toNat - 48) 1 else none

/-- Optional leading `+`/`-`: the sign and the remaining characters. -/
def takeSign : List Char → Bool × List Char
  | '+' :: rest => (false, rest)
  | '-' :: rest => (true, rest)
  | l => (false, l)

/-- Python `int(s)` on ASCII input. -/
def pyIntParse (s : String) : Option Int :=
  let l := stripL s.data
  let (neg, l2) := takeSign l
  match parseDigits l2 with
  | none => none
  | some (v, _) => some (if neg then -(v : Int) else (v : Int))

/-- Split a character list at the first occurrence of the given character. -/
def splitAtChar (sep : Char) : List Char → Option (List Char × List Char)
  | [] => none
  | c :: rest =>
    if c == sep then some ([], rest)
    else
      match splitAtChar sep rest with
      | some (a, b) => some (c :: a, b)
      | none => none

/-- Mantissa of a float literal: `digits [. [digits]]` or `. digits`. -/
def parseMantissa (l : List Char) : Option ℚ :=
  match splitAtChar '.' l with
  | none =>
    match parseDigits l with
    | some (v, _) => some (v : ℚ)
    | none => none
  | some (ip, fp) =>
    match ip, fp with
    | [], [] => none
    | [], _ =>
      match parseDigits fp with
      | some (fv, fc) => some ((fv : ℚ) / 10 ^ fc)
      | none => none
    | _, [] =>
      match parseDigits ip with
      | some (iv, _) => some (iv : ℚ)
      | none => none
    | _, _ =>
      match parseDigits ip, parseDigits fp with
      | some (iv, _), some (fv, fc) => some ((iv : ℚ) + (fv : ℚ) / 10 ^ fc)
      | _, _ => none

/-- Split at the first `e`/`E` (exponent marker). -/
def splitAtExp : List Char → Option (List Char × List Char)
  | [] => none
  | c :: rest =>
    if c == 'e' || c == 'E' then some ([], rest)
    else
      match splitAtExp rest with
      | some (a, b) => some (c :: a, b)
      | none => none

/-- Python `float(s)` on ASCII numeric literals, as an exact rational. -/
def pyFloatParse (s : String) : Option ℚ :=
  let l := stripL s.data
  let (neg, l2) := takeSign l
  let mantExp : Option (ℚ × Int) :=
    match splitAtExp l2 with
    | none =>
      match parseMantissa l2 with
      | some m => some (m, 0)
      | none => none
    | some (mant, ex) =>
      match parseMantissa mant with
      | none => none
      | some m =>
        let (eneg, ex2) := takeSign ex
        match parseDigits ex2 with
        | some (ev, _) => some (m, if eneg then -(ev : Int) else (ev : Int))
        | none => none
  match mantExp with
  | none => none
  | some (m, e) =>
    let v := m * (10 : ℚ) ^ e
    some (if neg then -v else v)

/-! ### Config resolution from environment variables -/

/-- `FORECAST_DAYS` resolution: `int(value)` with `ValueError` falling back to
3, then values outside `range(1, 4)` replaced by 3. -/
def forecastDaysRaw (s : String) : Int :=
  (pyIntParse s).getD 3

/-- The resolved forecast-day count for a given `WEATHER_FORECAST_DAYS` value. -/
def resolveForecastDays (s : String) : Int :=
  if 1 ≤ forecastDaysRaw s ∧ forecastDaysRaw s ≤ 3 then forecastDaysRaw s else 3

/-- `lat, lon = map(float, get_location.split(","))` with any exception
falling back to `(48.8566, 2.3522)`. -/
def resolveLocation (s : String) : ℚ × ℚ :=
  match (splitOnChar ',' s.data).mapM (fun part => pyFloatParse (String.mk part)) with
  | some [la, lo] => (la, lo)
  | _ => (48.8566, 2.3522)

/-! ### `load_env_file` -/

/-- The process environment, keyed by variable name. -/
def Env : Type := List Char → Option (List Char)

/-- The empty environment. -/
def emptyEnv : Env := fun _ => none

/-- `os.environ[key] = value`. -/
def setVar (env : Env) (key value : List Char) : Env :=
  fun k => if k = key then some value else env k

/-- The characters of `"export "`. -/
def exportKw : List Char := ['e', 'x', 'p', 'o', 'r', 't', ' ']

/-- Leading-substring test on character lists. -/
def startsWithL : List Char → List Char → Bool
  | _, [] => true
  | [], _ :: _ => false
  | c :: cs, p :: ps => c == p && startsWithL cs ps

/-- Strip `"` characters from both ends (Python `value.strip('"')`). -/
def stripQ (l : List Char) : List Char :=
  ((l.dropWhile (fun c => c == '"')).reverse.dropWhile (fun c => c == '"')).reverse

/-- One iteration of the `load_env_file` loop on a line: `some env` when the
line is skipped or sets a variable, `none` when the iteration raises
(`split("=", 1)` yields no `=` to unpack, or the variable name is empty and
`os.environ` assignment fails). -/
def processLine (env : Env) (line : List Char) : Option Env :=
  if (stripL line).isEmpty || startsWithL line ['#'] then some env
  else
    let l := if startsWithL line exportKw then line.drop exportKw.length else line
    match splitAtChar '=' (stripL l) with
    | none => none
    | some (key, value) =>
      if key.isEmpty then none else some (setVar env key (stripQ value))

/-- The `load_env_file` loop: lines run in order; the first raising line stops
the loop (the surrounding `except Exception: pass` swallows the error), keeping
the updates already made. -/
def runLines : List (List Char) → Env → Env
  | [], env => env
  | l :: ls, env =>
    match processLine env l with
    | some env2 => runLines ls env2
    | none => env

/-- All lines run without raising (statement helper for `runLines`). -/
def linesOkB : List (List Char) → Env → Bool
  | [], _ => true
  | l :: ls, env =>
    match processLine env l with
    | some env2 => linesOkB ls env2
    | none => false

/-- `load_env_file(filepath)`: `none` models a file that cannot be opened
(the `except` leaves the environment unchanged); otherwise the lines of the
file are processed in order. -/
def load_env_file (content : Option (List (List Char))) (env : Env) : Env :=
  match content with
  | none => env
  | some ls => runLines ls env

/-! ## Helper lemmas -/

theorem pyIndex_ok {α : Type} {l : List α} {i : Nat} {a : α} :
    pyIndex l i = .ok a ↔ l.get? i = some a := by
  unfold pyIndex
  cases h : l.get? i <;> simp

/-- Inversion of a successful forecast-loop iteration: the sources of each
piece and the exact shape of the appended block. -/
theorem forecastBlock_ok_shape {u : String} {d : DailyData} {i : Nat} {b : String}
    (hb : forecastBlock u d i = .ok b) :
    ∃ date code tmax tmin sr ss,
      d.time.get? i = some date ∧
      d.weathercode.get? i = some code ∧
      d.temperature_2m_max.get? i = some tmax ∧
      d.temperature_2m_min.get? i = some tmin ∧
      (∃ sr0, d.sunrise.get? i = some sr0 ∧ splitT5 sr0 = .ok sr) ∧
      (∃ ss0, d.sunset.get? i = some ss0 ∧ splitT5 ss0 = .ok ss) ∧
      b = "\n<b>" ++ dayLabel i ++ " (" ++ date ++ ")</b>\n"
        ++ get_weather_icon code ++ " " ++ get_description code ++ "\n"
        ++ "⬆️ " ++ formatDailyTemp u tmax ++ " ⬇️ " ++ formatDailyTemp u tmin ++ "\n"
        ++ "🌅 " ++ sr ++ " 🌇 " ++ ss ++ "\n" := by
  unfold forecastBlock at hb
  split at hb
  · exact Except.noConfusion hb
  rename_i date h1
  split at hb
  · exact Except.noConfusion hb
  rename_i code h2
  split at hb
  · exact Except.noConfusion hb
  rename_i tmax h3
  split at hb
  · exact Except.noConfusion hb
  rename_i tmin h4
  split at hb
  · exact Except.noConfusion hb
  rename_i sr0 h5
  split at hb
  · exact Except.noConfusion hb
  rename_i sr h6
  split at hb
  · exact Except.noConfusion hb
  rename_i ss0 h7
  split at hb
  · exact Except.noConfusion hb
  rename_i ss h8
  have hbeq := Except.ok.inj hb
  exact ⟨date, code, tmax, tmin, sr, ss, pyIndex_ok.mp h1, pyIndex_ok.mp h2,
    pyIndex_ok.mp h3, pyIndex_ok.mp h4, ⟨sr0, pyIndex_ok.mp h5, h6⟩,
    ⟨ss0, pyIndex_ok.mp h7, h8⟩, hbeq.symm⟩

/-- A successful run of the forecast loop yields one block per index. -/
theorem forecastBlocksAux_ok_length {u : String} {d : DailyData} :
    ∀ {is : List Nat} {bs : List String},
      forecastBlocksAux u d is = .ok bs → bs.length = is.length := by
  intro is
  induction is with
  | nil => intro bs h; cases h; rfl
  | cons i is ih =>
    intro bs h
    unfold forecastBlocksAux at h
    split at h
    · exact Except.noConfusion h
    rename_i b hbl
    split at h
    · exact Except.noConfusion h
    rename_i bs2 hrest
    cases h
    simp [ih hrest]

/-- A successful run of the forecast loop computes block `j` from index `j` of
the iteration list. -/
theorem forecastBlocksAux_ok_get {u : String} {d : DailyData} :
    ∀ {is : List Nat} {bs : List String},
      forecastBlocksAux u d is = .ok bs →
      ∀ j (hj : j < bs.length) (hj2 : j < is.length),
        forecastBlock u d (is.get ⟨j, hj2⟩) = .ok (bs.get ⟨j, hj⟩) := by
  intro is
  induction is with
  | nil => intro bs h j hj hj2; exact absurd hj2 (by simp)
  | cons i is ih =>
    intro bs h j hj hj2
    unfold forecastBlocksAux at h
    split at h
    · exact Except.noConfusion h
    rename_i b hbl
    split at h
    · exact Except.noConfusion h
    rename_i bs2 hrest
    cases h
    cases j with
    | zero => exact hbl
    | succ j =>
      exact ih hrest j (Nat.lt_of_succ_lt_succ hj) (Nat.lt_of_succ_lt_succ hj2)

/-- Inversion of a successful processing run. -/
theorem process_ok_shape {cfg : Config} {w : WeatherData} {r : OutRecord}
    (h : process cfg w = .ok r) :
    ∃ current daily blocks,
      w.current = some current ∧ w.daily = some daily ∧
      forecastBlocksAux cfg.temp_unit daily
        (List.range (min cfg.forecast_days (daily.time.length : Int)).toNat) = .ok blocks ∧
      r = { text := buildText cfg current
            tooltip := tooltipHead cfg current ++ String.join blocks } := by
  unfold process at h
  split at h
  · exact Except.noConfusion h
  rename_i current hcur
  split at h
  · exact Except.noConfusion h
  rename_i daily hdly
  split at h
  · exact Except.noConfusion h
  rename_i blocks hblk
  cases h
  exact ⟨current, daily, blocks, hcur, hdly, hblk, rfl⟩

/-! ## Claims -/

/-- C1: on any fetch failure the program writes exactly the record
`{"text": "❓ Weather Error", "tooltip": "Failed to get weather data: <msg>"}`
and exits with code 1; on any exception while processing the payload it writes
a record with text `"❓ Processing Error"` and the exception message in the
tooltip, writes a stack trace to standard error, and exits with code 0. -/
theorem claim_C1 :
    (∀ (cfg : Config) (msg : String),
      mainRun cfg (.failure msg) =
        { stdout := { text := "❓ Weather Error", tooltip := "Failed to get weather data: " ++ msg }
          exitCode := 1, stderrTrace := false }) ∧
    (∀ (cfg : Config) (w : WeatherData) (e : String), process cfg w = .error e →
      mainRun cfg (.success w) =
        { stdout := { text := "❓ Processing Error",
                      tooltip := "Failed to process weather data: " ++ e }
          exitCode := 0, stderrTrace := true }) := by
  constructor
  · intro cfg msg; rfl
  · intro cfg w e h; simp [mainRun, h]

/-- A concrete resolved configuration (all defaults). -/
def cfg0 : Config :=
  { temp_unit := "c", windspeed_unit := "km/h", show_icon := true, show_location := true
    forecast_days := 3, lat := 48.8566, lon := 2.3522 }

/-- Witness for C1: a payload with a missing `current` key takes the
processing-error path with exit code 0 and a stderr trace. -/
theorem claim_C1_witness :
    process cfg0 { current := none, daily := none } = .error "KeyError: current" ∧
    mainRun cfg0 (.success { current := none, daily := none }) =
      { stdout := { text := "❓ Processing Error",
                    tooltip := "Failed to process weather data: KeyError: current" }
        exitCode := 0, stderrTrace := true } :=
  ⟨rfl, claim_C1.2 cfg0 { current := none, daily := none } "KeyError: current" rfl⟩

/-- C2: every weather code in the fixed table maps to its emoji and its
human-readable description; every integer outside the table maps to `"❓"` and
`"Unknown"`. -/
theorem claim_C2 :
    ((wmoCodes.map fun c => (get_weather_icon c, get_description c)) =
      [("☀️", "Clear sky"), ("🌤️", "Mainly clear"), ("⛅", "Partly cloudy"), ("☁️", "Overcast"),
       ("🌫️", "Fog"), ("🌫️", "Depositing rime fog"), ("🌧️", "Light drizzle"),
       ("🌧️", "Moderate drizzle"), ("🌧️", "Dense drizzle"), ("🌧️", "Slight rain"),
       ("🌧️", "Moderate rain"), ("🌧️", "Heavy rain"), ("🌦️", "Slight rain showers"),
       ("🌦️", "Moderate rain showers"), ("🌦️", "Violent rain showers"), ("⛈️", "Thunderstorm"),
       ("⛈️", "Thunderstorm with slight hail"), ("⛈️", "Thunderstorm with heavy hail")]) ∧
    (∀ c : Int, c ∉ wmoCodes → get_weather_icon c = "❓" ∧ get_description c = "Unknown") := by
  refine ⟨by decide, ?_⟩
  intro c hc
  simp only [wmoCodes, List.mem_cons, List.not_mem_nil, or_false, not_or] at hc
  obtain ⟨g0, g1, g2, g3, g45, g48, g51, g53, g55, g61, g63, g65, g80, g81, g82, g95, g96, g99⟩ := hc
  constructor
  · simp [get_weather_icon, WMO_WEATHER_CODES,
      g0, g1, g2, g3, g45, g48, g51, g53, g55, g61, g63, g65, g80, g81, g82, g95, g96, g99]
  · simp [get_description, descriptions,
      g0, g1, g2, g3, g45, g48, g51, g53, g55, g61, g63, g65, g80, g81, g82, g95, g96, g99]

/-- Witness for C2: code 7 is not in the table and gets the fallbacks. -/
theorem claim_C2_witness :
    get_weather_icon 7 = "❓" ∧ get_description 7 = "Unknown" :=
  claim_C2.2 7 (by decide)

/-- C3: with unit `"f"` every rendered temperature (current, feels-like, and
the daily max/min of each forecast block) is `c * 9/5 + 32` formatted to one
decimal; with unit `"c"` the current temperature is passed through unconverted. -/
theorem claim_C3 :
    (∀ cur : CurrentData,
      get_temperature "f" cur = fmt1 (cur.temperature_2m * 9 / 5 + 32) ++ "°F") ∧
    (∀ cur : CurrentData,
      get_temperature "c" cur = pyStr cur.temperature_2m ++ "°C") ∧
    (∀ cur : CurrentData,
      get_feels_like "f" cur = fmt1 (feelsVal cur * 9 / 5 + 32) ++ "°F") ∧
    (∀ (d : DailyData) (i : Nat) (b : String) (tmax tmin : ℚ),
      d.temperature_2m_max.get? i = some tmax →
      d.temperature_2m_min.get? i = some tmin →
      forecastBlock "f" d i = .ok b →
      ∃ pre post : String,
        b = pre ++ ("⬆️ " ++ (fmt1 (tmax * 9 / 5 + 32) ++ "°F")
          ++ " ⬇️ " ++ (fmt1 (tmin * 9 / 5 + 32) ++ "°F")) ++ post) := by
  refine ⟨fun cur => rfl, fun cur => rfl, fun cur => rfl, ?_⟩
  intro d i b tmax tmin hmax hmin hb
  obtain ⟨date, code, tmax2, tmin2, sr, ss, _, _, hmax2, hmin2, _, _, hshape⟩ :=
    forecastBlock_ok_shape hb
  rw [hmax] at hmax2
  rw [hmin] at hmin2
  obtain rfl : tmax = tmax2 := Option.some.inj hmax2
  obtain rfl : tmin = tmin2 := Option.some.inj hmin2
  refine ⟨"\n<b>" ++ dayLabel i ++ " (" ++ date ++ ")</b>\n"
      ++ get_weather_icon code ++ " " ++ get_description code ++ "\n",
    "\n" ++ "🌅 " ++ sr ++ " 🌇 " ++ ss ++ "\n", ?_⟩
  rw [hshape]
  have hf : ∀ t : ℚ, formatDailyTemp "f" t = fmt1 (t * 9 / 5 + 32) ++ "°F" := fun t => rfl
  rw [hf, hf]
  simp only [String.append_assoc]

/-- Witness data for the daily-forecast claims: one forecast day. -/
def d0 : DailyData :=
  { time := ["2026-01-01"], weathercode := [0], temperature_2m_max := [20]
    temperature_2m_min := [10], sunrise := ["2026-01-01T08:00"], sunset := ["2026-01-01T17:00"] }

/-- Witness payload fields: temperature 20 °C, clear sky, wind 10, humidity 50. -/
def cur50 : CurrentData := ⟨20, 0, 10, 50⟩

/-- Witness payload fields: temperature 20 °C, clear sky, wind 10, humidity 80. -/
def cur80 : CurrentData := ⟨20, 0, 10, 80⟩

/-- Witness for C3: concrete conversions at 20 °C / 10 °C. -/
theorem claim_C3_witness :
    get_temperature "f" cur50 = "68.0°F" ∧
    ∃ (b : String), forecastBlock "f" d0 0 = .ok b ∧
      ∃ pre post : String,
        b = pre ++ ("⬆️ " ++ (fmt1 ((20 : ℚ) * 9 / 5 + 32) ++ "°F")
          ++ " ⬇️ " ++ (fmt1 ((10 : ℚ) * 9 / 5 + 32) ++ "°F")) ++ post := by
  constructor
  · rw [claim_C3.1 cur50]
    norm_num [cur50, fmt1, roundHalfEvenZ]
    decide
  · obtain ⟨b, hb⟩ : ∃ b, forecastBlock "f" d0 0 = .ok b := ⟨_, rfl⟩
    exact ⟨b, hb, claim_C3.2.2.2 d0 0 b 20 10 rfl rfl hb⟩

/-- C4: the feels-like temperature is the raw temperature plus 2 when relative
humidity exceeds 70 and the raw temperature otherwise, with the adjustment
applied before the Celsius-to-Fahrenheit conversion. -/
theorem claim_C4 :
    ∀ (temp_unit : String) (cur : CurrentData),
      (cur.relative_humidity_2m > 70 →
        get_feels_like temp_unit cur =
          (if temp_unit = "c" then fmt1 (cur.temperature_2m + 2) ++ "°C"
           else fmt1 ((cur.temperature_2m + 2) * 9 / 5 + 32) ++ "°F")) ∧
      (cur.relative_humidity_2m ≤ 70 →
        get_feels_like temp_unit cur =
          (if temp_unit = "c" then fmt1 cur.temperature_2m ++ "°C"
           else fmt1 (cur.temperature_2m * 9 / 5 + 32) ++ "°F")) := by
  intro temp_unit cur
  constructor
  · intro h
    simp only [get_feels_like]
    rw [if_pos h]
  · intro h
    simp only [get_feels_like]
    rw [if_neg (not_lt.mpr h)]

/-- Witness for C4: humidity 80 adds 2 °C before conversion, humidity 50
leaves the temperature unchanged. -/
theorem claim_C4_witness :
    get_feels_like "c" cur80 = "22.0°C" ∧ get_feels_like "f" cur50 = "68.0°F" := by
  constructor
  · rw [(claim_C4 "c" cur80).1 (by norm_num [cur80])]
    norm_num [cur80, fmt1, roundHalfEvenZ]
    decide
  · rw [(claim_C4 "f" cur50).2 (by norm_num [cur50])]
    norm_num [cur50, fmt1, roundHalfEvenZ]
    decide

/-- C5: for every successfully processed payload whose daily `time` array has
`dd` entries, the tooltip is the head followed by exactly
`min(FORECAST_DAYS, dd)` forecast blocks in array order, the block at index 0
labeled `"Today"` and the block at index `i > 0` labeled `"Day {i+1}"`. -/
theorem claim_C5 (cfg : Config) (w : WeatherData) (r : OutRecord) (d : DailyData) (dd : Nat)
    (hp : process cfg w = .ok r) (hd : w.daily = some d) (hlen : d.time.length = dd) :
    ∃ current blocks,
      w.current = some current ∧
      forecastBlocksAux cfg.temp_unit d
        (List.range (min cfg.forecast_days (dd : Int)).toNat) = .ok blocks ∧
      blocks.length = (min cfg.forecast_days (dd : Int)).toNat ∧
      r.tooltip = tooltipHead cfg current ++ String.join blocks ∧
      (∀ j (hj : j < blocks.length),
        ∃ rest, blocks.get ⟨j, hj⟩ = ("\n<b>" ++ dayLabel j) ++ rest) ∧
      dayLabel 0 = "Today" ∧ (∀ i : Nat, i ≠ 0 → dayLabel i = "Day " ++ toString (i + 1)) := by
  obtain ⟨current, daily, blocks, hcur, hdly, hblk, hrec⟩ := process_ok_shape hp
  rw [hd] at hdly
  obtain rfl : d = daily := Option.some.inj hdly
  rw [hlen] at hblk
  have hlenb := forecastBlocksAux_ok_length hblk
  refine ⟨current, blocks, hcur, hblk, by rw [hlenb, List.length_range], ?_, ?_, rfl, ?_⟩
  · rw [hrec]
  · intro j hj
    have hj2 : j < (List.range (min cfg.forecast_days (dd : Int)).toNat).length := by
      rw [← hlenb]; exact hj
    have hget := forecastBlocksAux_ok_get hblk j hj hj2
    have hidx : (List.range (min cfg.forecast_days (dd : Int)).toNat).get ⟨j, hj2⟩ = j := by
      simp
    rw [hidx] at hget
    obtain ⟨date, code, tmax, tmin, sr, ss, _, _, _, _, _, _, hshape⟩ :=
      forecastBlock_ok_shape hget
    refine ⟨" (" ++ date ++ ")</b>\n"
      ++ get_weather_icon code ++ " " ++ get_description code ++ "\n"
      ++ "⬆️ " ++ formatDailyTemp cfg.temp_unit tmax ++ " ⬇️ " ++ formatDailyTemp cfg.temp_unit tmin ++ "\n"
      ++ "🌅 " ++ sr ++ " 🌇 " ++ ss ++ "\n", ?_⟩
    rw [hshape]
    simp only [String.append_assoc]
  · intro i hi
    simp [dayLabel, hi]

/-- One-day payload used by the C5/C6 witnesses. -/
def w0 : WeatherData := { current := some cur50, daily := some d0 }

/-- Witness for C5: the default configuration on a one-day payload yields
exactly `min 3 1 = 1` forecast block, labeled `"Today"`. -/
theorem claim_C5_witness :
    ∃ r, process cfg0 w0 = .ok r ∧
      ∃ current blocks,
        w0.current = some current ∧
        forecastBlocksAux cfg0.temp_unit d0
          (List.range (min cfg0.forecast_days ((1 : Nat) : Int)).toNat) = .ok blocks ∧
        blocks.length = (min cfg0.forecast_days ((1 : Nat) : Int)).toNat ∧
        r.tooltip = tooltipHead cfg0 current ++ String.join blocks ∧
        (∀ j (hj : j < blocks.length),
          ∃ rest, blocks.get ⟨j, hj⟩ = ("\n<b>" ++ dayLabel j) ++ rest) ∧
        dayLabel 0 = "Today" ∧
        (∀ i : Nat, i ≠ 0 → dayLabel i = "Day " ++ toString (i + 1)) := by
  obtain ⟨r, hr⟩ : ∃ r, process cfg0 w0 = .ok r := ⟨_, rfl⟩
  exact ⟨r, hr, claim_C5 cfg0 w0 r d0 1 hr rfl rfl⟩

/-- C6: for every successfully processed payload the text field is the icon
plus a space (only when `show_icon`), the formatted current temperature, and
the literal `" | Paris, FR"` (only when `show_location`); the configured
coordinates never influence the processing output. -/
theorem claim_C6 (cfg : Config) (w : WeatherData) (r : OutRecord)
    (hp : process cfg w = .ok r) :
    ∃ current, w.current = some current ∧
      r.text = (if cfg.show_icon then get_weather_icon current.weathercode ++ " " else "")
        ++ get_temperature cfg.temp_unit current
        ++ (if cfg.show_location then " | Paris, FR" else "") ∧
      ∀ la lo : ℚ, process { cfg with lat := la, lon := lo } w = process cfg w := by
  obtain ⟨current, daily, blocks, hcur, hdly, hblk, hrec⟩ := process_ok_shape hp
  refine ⟨current, hcur, ?_, fun la lo => rfl⟩
  rw [hrec]
  show buildText cfg current = _
  unfold buildText
  cases hi : cfg.show_icon <;> cases hl : cfg.show_location <;>
    simp only [if_pos, if_neg, Bool.false_eq_true, not_false_eq_true, ite_true, ite_false,
      String.empty_append, String.append_empty, String.append_assoc]

/-- Witness for C6: default config on the one-day payload; the text is
exactly `"☀️ 20°C | Paris, FR"`. -/
theorem claim_C6_witness :
    ∃ r, process cfg0 w0 = .ok r ∧
      (∃ current, w0.current = some current ∧
        r.text = (if cfg0.show_icon then get_weather_icon current.weathercode ++ " " else "")
          ++ get_temperature cfg0.temp_unit current
          ++ (if cfg0.show_location then " | Paris, FR" else "") ∧
        ∀ la lo : ℚ, process { cfg0 with lat := la, lon := lo } w0 = process cfg0 w0) ∧
      r.text = "☀️ 20°C | Paris, FR" := by
  obtain ⟨r, hr⟩ : ∃ r, process cfg0 w0 = .ok r := ⟨_, rfl⟩
  obtain ⟨current, hcur, htext, hloc⟩ := claim_C6 cfg0 w0 r hr
  refine ⟨r, hr, ⟨current, hcur, htext, hloc⟩, ?_⟩
  obtain rfl : cur50 = current := Option.some.inj hcur
  rw [htext]
  norm_num [cfg0, cur50, get_weather_icon, WMO_WEATHER_CODES, get_temperature, pyStr]
  decide

/-- C7: a `WEATHER_FORECAST_DAYS` value that `int()` cannot parse, or that
parses outside `[1, 3]`, resolves to 3; a value parsing to 1, 2 or 3 resolves
to that value. -/
theorem claim_C7 :
    (∀ s : String, pyIntParse s = none → resolveForecastDays s = 3) ∧
    (∀ (s : String) (n : Int), pyIntParse s = some n →
      ((n < 1 ∨ 3 < n) → resolveForecastDays s = 3) ∧
      (1 ≤ n → n ≤ 3 → resolveForecastDays s = n)) := by
  constructor
  · intro s h
    simp [resolveForecastDays, forecastDaysRaw, h]
  · intro s n h
    constructor
    · intro hout
      simp only [resolveForecastDays, forecastDaysRaw, h, Option.getD_some]
      rw [if_neg (by omega)]
    · intro h1 h3
      simp only [resolveForecastDays, forecastDaysRaw, h, Option.getD_some]
      rw [if_pos ⟨h1, h3⟩]

/-- Witness for C7: `"5"` parses to 5 and is clamped to 3; `"2"` resolves to
2; `"x"` fails to parse and resolves to 3. -/
theorem claim_C7_witness :
    resolveForecastDays "5" = 3 ∧ resolveForecastDays "2" = 2 ∧ resolveForecastDays "x" = 3 :=
  ⟨(claim_C7.2 "5" 5 rfl).1 (by norm_num),
   (claim_C7.2 "2" 2 rfl).2 (by norm_num) (by norm_num),
   claim_C7.1 "x" rfl⟩

/-- C8: a `WEATHER_LOCATION` string that does not split on `","` into exactly
two `float()`-parseable components resolves to the default pair
`(48.8566, 2.3522)`; a well-formed `"lat,lon"` string resolves to the parsed
pair. -/
theorem claim_C8 :
    (∀ (s : String) (la lo : ℚ),
      (splitOnChar ',' s.data).mapM (fun part => pyFloatParse (String.mk part)) = some [la, lo] →
      resolveLocation s = (la, lo)) ∧
    (∀ s : String,
      (∀ la lo : ℚ,
        (splitOnChar ',' s.data).mapM (fun part => pyFloatParse (String.mk part)) ≠ some [la, lo]) →
      resolveLocation s = (48.8566, 2.3522)) := by
  constructor
  · intro s la lo h
    unfold resolveLocation
    rw [h]
  · intro s h
    unfold resolveLocation
    cases hm : (splitOnChar ',' s.data).mapM (fun part => pyFloatParse (String.mk part)) with
    | none => rfl
    | some l =>
      match l with
      | [] => rfl
      | [a] => rfl
      | [a, b] => exact absurd hm (h a b)
      | a :: b :: c :: rest => rfl

/-- Witness for C8: `"not,valid"` falls back to the default pair, and a
well-formed string resolves to its parsed coordinates. -/
theorem claim_C8_witness :
    resolveLocation "not,valid" = (48.8566, 2.3522) ∧
    resolveLocation "3,4" = (3, 4) := by
  constructor
  · refine claim_C8.2 "not,valid" ?_
    intro la lo h
    rw [show (splitOnChar ',' ("not,valid").data).mapM
        (fun part => pyFloatParse (String.mk part)) = none from rfl] at h
    exact Option.noConfusion h
  · refine claim_C8.1 "3,4" 3 4 ?_
    show some [((3 : ℕ) : ℚ) * (10 : ℚ) ^ (0 : ℤ), ((4 : ℕ) : ℚ) * (10 : ℚ) ^ (0 : ℤ)]
      = some [3, 4]
    norm_num

/-! ### List lemmas for the `load_env_file` claims -/

theorem dropWhile_eq_self_of_all {p : Char → Bool} {l : List Char}
    (h : ∀ c ∈ l, p c = false) : l.dropWhile p = l := by
  induction l with
  | nil => rfl
  | cons a l ih =>
    have ha : ¬ p a = true := by simp [h a (List.mem_cons_self a l)]
    rw [List.dropWhile_cons_of_neg ha]

theorem stripL_eq_self_of_all {l : List Char}
    (h : ∀ c ∈ l, isSpaceB c = false) : stripL l = l := by
  unfold stripL
  rw [dropWhile_eq_self_of_all h,
    dropWhile_eq_self_of_all fun c hc => h c (List.mem_reverse.mp hc), List.reverse_reverse]

theorem stripL_eq_nil_all_space {l : List Char} (h : stripL l = []) :
    ∀ c ∈ l, isSpaceB c = true := by
  unfold stripL at h
  rw [List.reverse_eq_nil_iff, List.dropWhile_eq_nil_iff] at h
  have h2 : ∀ c ∈ l.dropWhile isSpaceB, isSpaceB c := by
    intro c hc
    exact h c (List.mem_reverse.mpr hc)
  intro c hc
  rw [← List.takeWhile_append_dropWhile (p := isSpaceB) (l := l)] at hc
  rcases List.mem_append.mp hc with h3 | h3
  · exact List.mem_takeWhile_imp h3
  · exact h2 c h3

theorem startsWithL_append_self (p t : List Char) : startsWithL (p ++ t) p = true := by
  induction p with
  | nil => cases t <;> rfl
  | cons c p ih => simp [startsWithL, ih]

theorem startsWithL_decomp {l p : List Char} (h : startsWithL l p = true) :
    ∃ t, l = p ++ t := by
  induction p generalizing l with
  | nil => exact ⟨l, rfl⟩
  | cons c p ih =>
    cases l with
    | nil => exact absurd h (by simp [startsWithL])
    | cons d l =>
      simp only [startsWithL, Bool.and_eq_true, beq_iff_eq] at h
      obtain ⟨t, ht⟩ := ih h.2
      exact ⟨t, by rw [h.1, ht]; rfl⟩

theorem splitAtChar_first {sep : Char} {key : List Char} (rest : List Char)
    (h : ∀ c ∈ key, (c == sep) = false) :
    splitAtChar sep (key ++ sep :: rest) = some (key, rest) := by
  induction key with
  | nil => simp [splitAtChar]
  | cons c key ih =>
    have hc : (c == sep) = false := h c (List.mem_cons_self c key)
    have ih2 := ih fun x hx => h x (List.mem_cons_of_mem c hx)
    simp [splitAtChar, hc, ih2]

theorem stripQ_eq_self_of_all {l : List Char}
    (h : ∀ c ∈ l, (c == '"') = false) : stripQ l = l := by
  unfold stripQ
  rw [dropWhile_eq_self_of_all h,
    dropWhile_eq_self_of_all fun c hc => h c (List.mem_reverse.mp hc), List.reverse_reverse]

theorem stripQ_quoted {v : List Char}
    (h : ∀ c ∈ v, (c == '"') = false) : stripQ ('"' :: (v ++ ['"'])) = v := by
  unfold stripQ
  rw [List.dropWhile_cons_of_pos (by simp)]
  cases v with
  | nil => rfl
  | cons a v =>
    rw [List.cons_append,
      List.dropWhile_cons_of_neg (by simp [h a (List.mem_cons_self a v)])]
    rw [show (a :: (v ++ ['"'])).reverse = '"' :: (a :: v).reverse by simp]
    rw [List.dropWhile_cons_of_pos (by simp),
      dropWhile_eq_self_of_all fun c hc => h c (List.mem_reverse.mp hc),
      List.reverse_reverse]

/-- C9: blank lines and lines starting with `#` are skipped without touching
the environment; a `KEY=VALUE` line — optionally prefixed with `export ` and
with the value optionally double-quoted — sets `KEY` to the unquoted value. -/
theorem claim_C9 :
    (∀ (env : Env) (line : List Char),
      stripL line = [] ∨ startsWithL line ['#'] = true →
      processLine env line = some env) ∧
    (∀ (env : Env) (key value : List Char) (ex q : Bool),
      key ≠ [] →
      (∀ c ∈ key, isSpaceB c = false ∧ c ≠ '=' ∧ c ≠ '#' ∧ c ≠ '"') →
      (∀ c ∈ value, isSpaceB c = false ∧ c ≠ '"') →
      processLine env
        ((if ex then exportKw else []) ++ (key ++ '=' ::
          (if q then '"' :: (value ++ ['"']) else value)))
        = some (setVar env key value)) := by
  constructor
  · intro env line h
    rcases h with h | h
    · simp [processLine, h]
    · simp [processLine, h]
  · intro env key value ex q hk hkey hval
    have hvqns : ∀ c ∈ (if q then '"' :: (value ++ ['"']) else value), isSpaceB c = false := by
      cases q with
      | false =>
        intro c hc
        exact (hval c hc).1
      | true =>
        intro c hc
        rcases List.mem_cons.mp hc with rfl | hc2
        · decide
        rcases List.mem_append.mp hc2 with h3 | h3
        · exact (hval c h3).1
        · rw [List.mem_singleton.mp h3]; decide
    have htail : ∀ c ∈ key ++ '=' :: (if q then '"' :: (value ++ ['"']) else value),
        isSpaceB c = false := by
      intro c hc
      rcases List.mem_append.mp hc with h1 | h1
      · exact (hkey c h1).1
      rcases List.mem_cons.mp h1 with rfl | h2
      · decide
      · exact hvqns c h2
    have hsplit : splitAtChar '='
        (key ++ '=' :: (if q then '"' :: (value ++ ['"']) else value))
        = some (key, if q then '"' :: (value ++ ['"']) else value) :=
      splitAtChar_first _ fun c hc => by simp [(hkey c hc).2.1]
    have hquote : stripQ (if q then '"' :: (value ++ ['"']) else value) = value := by
      cases q with
      | false => exact stripQ_eq_self_of_all fun c hc => by simp [(hval c hc).2]
      | true => exact stripQ_quoted fun c hc => by simp [(hval c hc).2]
    have hkeyem : key.isEmpty = false := by
      cases key with
      | nil => exact absurd rfl hk
      | cons k ks => rfl
    cases ex with
    | false =>
      cases key with
      | nil => exact absurd rfl hk
      | cons k ks =>
      have hc1 : (stripL ((k :: ks) ++ '=' ::
          (if q then '"' :: (value ++ ['"']) else value))).isEmpty = false := by
        rw [stripL_eq_self_of_all htail]
        rfl
      have hc2 : startsWithL ((k :: ks) ++ '=' ::
          (if q then '"' :: (value ++ ['"']) else value)) ['#'] = false := by
        rw [List.cons_append]
        simp [startsWithL, (hkey k (List.mem_cons_self k ks)).2.2.1]
      have hc3 : startsWithL ((k :: ks) ++ '=' ::
          (if q then '"' :: (value ++ ['"']) else value)) exportKw = false := by
        by_contra hcon
        rw [Bool.not_eq_false] at hcon
        obtain ⟨t, ht⟩ := startsWithL_decomp hcon
        have hsp : (' ' : Char) ∈ (k :: ks) ++ '=' ::
            (if q then '"' :: (value ++ ['"']) else value) := by
          rw [ht]
          exact List.mem_append_left _ (by decide)
        exact absurd (htail ' ' hsp) (by decide)
      simp only [Bool.false_eq_true, if_false, List.nil_append]
      unfold processLine
      rw [hc1, hc2, hc3]
      simp only [Bool.or_self, Bool.false_eq_true, if_false]
      rw [stripL_eq_self_of_all htail, hsplit]
      simp only [hkeyem, Bool.false_eq_true, if_false, hquote]
    | true =>
      have hc1 : (stripL (exportKw ++ (key ++ '=' ::
          (if q then '"' :: (value ++ ['"']) else value)))).isEmpty = false := by
        cases hsl : stripL (exportKw ++ (key ++ '=' ::
            (if q then '"' :: (value ++ ['"']) else value))) with
        | nil =>
          have := stripL_eq_nil_all_space hsl 'e' (List.mem_append_left _ (by decide))
          exact absurd this (by decide)
        | cons a t => rfl
      have hc2 : startsWithL (exportKw ++ (key ++ '=' ::
          (if q then '"' :: (value ++ ['"']) else value))) ['#'] = false := by
        simp [exportKw, startsWithL]
      have hexp : startsWithL (exportKw ++ (key ++ '=' ::
          (if q then '"' :: (value ++ ['"']) else value))) exportKw = true :=
        startsWithL_append_self _ _
      simp only [if_true]
      unfold processLine
      rw [hc1, hc2, hexp]
      simp only [Bool.or_self, Bool.false_eq_true, if_false, if_true, List.drop_left]
      rw [stripL_eq_self_of_all htail, hsplit]
      simp only [hkeyem, Bool.false_eq_true, if_false, hquote]

/-- Witness for C9: a blank line and a `#` comment are skipped, and
`export FOO="bar"` sets `FOO` to `bar` in the empty environment. -/
theorem claim_C9_witness :
    processLine emptyEnv ("   ".data) = some emptyEnv ∧
    processLine emptyEnv ("# comment".data) = some emptyEnv ∧
    processLine emptyEnv ("export FOO=\"bar\"".data)
      = some (setVar emptyEnv ("FOO".data) ("bar".data)) := by
  refine ⟨claim_C9.1 emptyEnv _ (Or.inl (by decide)), claim_C9.1 emptyEnv _ (Or.inr (by decide)), ?_⟩
  have h := claim_C9.2 emptyEnv ("FOO".data) ("bar".data) true true
    (by decide) (by decide) (by decide)
  exact h

/-- The loop of `load_env_file` stops at the first raising line, keeping the
updates of the earlier lines and ignoring the rest of the file. -/
theorem runLines_stops_at_bad (bad : List Char) (rest : List (List Char)) :
    ∀ (good : List (List Char)) (env : Env),
      linesOkB good env = true →
      processLine (runLines good env) bad = none →
      runLines (good ++ bad :: rest) env = runLines good env := by
  intro good
  induction good with
  | nil =>
    intro env h1 h2
    have h2b : processLine env bad = none := h2
    show runLines (bad :: rest) env = env
    simp only [runLines, h2b]
  | cons l ls ih =>
    intro env h1 h2
    cases hp : processLine env l with
    | none =>
      exact absurd h1 (by simp [linesOkB, hp])
    | some env2 =>
      have h1b : linesOkB ls env2 = true := by
        simp only [linesOkB, hp] at h1
        exact h1
      have hrun : runLines (l :: ls) env = runLines ls env2 := by
        simp only [runLines, hp]
      have h2b : processLine (runLines ls env2) bad = none := by
        rw [← hrun]
        exact h2
      show runLines ((l :: ls) ++ bad :: rest) env = runLines (l :: ls) env
      rw [List.cons_append, hrun]
      simp only [runLines, hp]
      exact ih env2 h1b h2b

/-- C10: `load_env_file` is total (the catch-all `except` swallows every
error, and a missing file leaves the environment unchanged); when a line
fails to parse, the variables set by earlier lines remain set and the rest of
the file is silently ignored, so loading is not atomic on error. -/
theorem claim_C10 :
    (∀ env : Env, load_env_file none env = env) ∧
    (∀ (env : Env) (good : List (List Char)) (bad : List Char) (rest : List (List Char)),
      linesOkB good env = true →
      processLine (runLines good env) bad = none →
      load_env_file (some (good ++ bad :: rest)) env = runLines good env) := by
  constructor
  · intro env; rfl
  · intro env good bad rest h1 h2
    show runLines (good ++ bad :: rest) env = runLines good env
    exact runLines_stops_at_bad bad rest good env h1 h2

/-- Witness for C10: `A=1` then the unparseable line `oops` then `B=2`: the
file loads without error, `A` stays set, and `B` is never set. -/
theorem claim_C10_witness :
    linesOkB [("A=1".data)] emptyEnv = true ∧
    processLine (runLines [("A=1".data)] emptyEnv) ("oops".data) = none ∧
    load_env_file (some ([("A=1".data)] ++ ("oops".data) :: [("B=2".data)])) emptyEnv
      = runLines [("A=1".data)] emptyEnv ∧
    runLines [("A=1".data)] emptyEnv ("A".data) = some ("1".data) ∧
    runLines [("A=1".data)] emptyEnv ("B".data) = none := by
  refine ⟨rfl, rfl, claim_C10.2 emptyEnv _ _ _ rfl rfl, rfl, rfl⟩

end Weather
